import Mathlib

/-!
Verification development for the subprocess session lifecycle manager
(`src/services/claude-cli.ts` and `src/services/discuss-workflow.ts`).

The TypeScript code is shallowly embedded:
* the incremental newline-delimited stream parser (the `stdout` data handler
  shared by `spawnDiscussCli` / `compactCliSession`) becomes explicit
  state-passing over `List Char` chunks;
* the per-record JSON dispatch becomes a fold over an inductive record type;
* the session controller (`startDiscussSession`, `handleDiscussReply`,
  `handleDiscussCompact`, `handleDiscussExit`,
  `runDiscussCliWithHeartbeat`) becomes pure transitions on a registry
  value, emitting a list of attempted external effects (message posts,
  message updates, subprocess spawns, kills, persistence calls).

JavaScript floating-point arithmetic appears only in user-facing message
formatting (`Math.round`, `toFixed`); the roundings are modelled exactly on
naturals where the operands are integers (`Math.round(x)` with `x = a/b`
becomes `(a + b / 2) / b` in natural division) and the fractional-dollar
`toFixed(4)` rendering, which no claim touches, is abstracted to a decimal
rendering of an opaque numeric cost.
-/

namespace OneClaw

/-! ### Stream parser (claude-cli.ts, stdout data handler, lines 257-261)

The handler keeps one pending buffer; on each chunk it appends, splits on
newline, keeps the final segment as the new pending buffer and treats the
preceding segments as complete lines.  `scanLines` computes, for a whole
buffer, the pair (complete lines, trailing pending segment) — exactly
`split("\n")` with the last element popped off. -/

/-- Split a buffer into its newline-terminated complete lines and the
trailing unterminated segment (`const lines = stdout.split("\n");
stdout = lines.pop() || ""`). -/
def scanLines : List Char → List (List Char) × List Char
  | [] => ([], [])
  | c :: rest =>
    if c = '\n' then ([] :: (scanLines rest).1, (scanLines rest).2)
    else
      match (scanLines rest).1 with
      | [] => ([], c :: (scanLines rest).2)
      | l :: ls => ((c :: l) :: ls, (scanLines rest).2)

/-- How the line/pending decomposition of a concatenated buffer is assembled
from the decompositions of its two halves: the pending prefix of the left half
attaches to the first complete line of the right half, if there is one. -/
def scanCombine (x y : List (List Char) × List Char) :
    List (List Char) × List Char :=
  match y.1 with
  | [] => (x.1, x.2 ++ y.2)
  | hb :: tb => (x.1 ++ ((x.2 ++ hb) :: tb), y.2)

/-- One invocation of the per-chunk routine: append the chunk to the pending
buffer, emit the complete lines, keep the unterminated tail. The first
component accumulates all lines emitted so far across chunks. -/
def feedChunk (st : List (List Char) × List Char) (chunk : List Char) :
    List (List Char) × List Char :=
  (st.1 ++ (scanLines (st.2 ++ chunk)).1, (scanLines (st.2 ++ chunk)).2)

/-- Feed a sequence of chunks through the per-chunk routine, starting from an
empty pending buffer, collecting every complete line emitted. -/
def feedChunks (chunks : List (List Char)) : List (List Char) × List Char :=
  chunks.foldl feedChunk ([], [])

/-- The stream of successfully parsed objects: each complete line is attempted
by `parse` (standing for the blank-line skip plus `JSON.parse` in a
`try`/`catch`), failures are silently discarded. -/
def emittedObjects {α : Type} (parse : List Char → Option α)
    (chunks : List (List Char)) : List α :=
  (feedChunks chunks).1.filterMap parse

/-! ### Parsed stream records (claude-cli.ts, lines 247-332)

Each successfully parsed JSON line is dispatched on its `type` field.  The
fields the handler probes are modelled with `Option`, where `none` stands
for an absent field or one of the wrong dynamic type (`typeof` checks).
Cost values (`total_cost_usd`) are carried opaquely as naturals: no claim
computes with them. -/

/-- A content block of an assistant message: only `{type:"text"}` blocks are
distinguished by the handler. -/
inductive ContentBlock where
  | text (s : String)
  | other
  deriving DecidableEq

/-- The `usage` sub-object of an assistant message. -/
structure Usage where
  input_tokens : Option Nat := none
  cache_creation_input_tokens : Option Nat := none
  cache_read_input_tokens : Option Nat := none
  output_tokens : Option Nat := none
  deriving DecidableEq

/-- The `result` field of a terminal record: absent / a string / an array of
content blocks (`typeof obj.result === "string"` vs `Array.isArray`). -/
inductive ResultField where
  | absent
  | str (s : String)
  | arr (blocks : List ContentBlock)
  deriving DecidableEq

/-- One parsed JSON record, classified by its `type` discriminator. -/
inductive CliRecord where
  | assistant (usage : Option Usage) (content : Option (List ContentBlock))
  | result (res : ResultField) (total_cost_usd : Option Nat)
      (session_id : Option String) (num_turns : Option Nat)
  | other
  deriving DecidableEq

/-- The mutable captures of the `spawnDiscussCli` stdout handler. -/
structure StreamState where
  costUsd : Option Nat := none
  response : Option String := none
  sessionId : Option String := none
  inputTokens : Option Nat := none
  outputTokens : Option Nat := none
  numTurns : Option Nat := none
  assistantText : String := ""
  deriving DecidableEq

/-- The resolved value of the `done` promise of `spawnDiscussCli`. -/
structure DiscussCliResult where
  exitCode : Option Int
  costUsd : Option Nat := none
  response : Option String := none
  sessionId : Option String := none
  inputTokens : Option Nat := none
  outputTokens : Option Nat := none
  numTurns : Option Nat := none
  deriving DecidableEq

/-- JavaScript string truthiness: an optional string is truthy when present
and nonempty. -/
def strTruthy : Option String → Bool
  | some s => !s.isEmpty
  | none => false

/-- Context size carried by a usage object: `input_tokens +
cache_creation_input_tokens + cache_read_input_tokens`, each missing
sub-field counted as `0` (lines 270-273). -/
def sumUsage (u : Usage) : Nat :=
  u.input_tokens.getD 0 + u.cache_creation_input_tokens.getD 0 +
    u.cache_read_input_tokens.getD 0

/-- The running assistant-text fallback: the last text block wins
(lines 279-283). -/
def lastTextBlock (blocks : List ContentBlock) (cur : String) : String :=
  blocks.foldl
    (fun acc b =>
      match b with
      | ContentBlock.text t => t
      | ContentBlock.other => acc)
    cur

/-- The text-typed entries of a result-field array, joined with newlines
(lines 290-294). -/
def resultArrayTexts (blocks : List ContentBlock) : List String :=
  blocks.filterMap
    (fun b =>
      match b with
      | ContentBlock.text t => some t
      | ContentBlock.other => none)

/-- Processing of one parsed record by the `spawnDiscussCli` stdout handler
(lines 264-302). -/
def processRecord (s : StreamState) : CliRecord → StreamState
  | CliRecord.assistant usage content =>
    let s1 :=
      match usage with
      | some u =>
        { s with
          inputTokens := some (sumUsage u)
          outputTokens :=
            match u.output_tokens with
            | some n => some n
            | none => s.outputTokens }
      | none => s
    match content with
    | some blocks => { s1 with assistantText := lastTextBlock blocks s1.assistantText }
    | none => s1
  | CliRecord.result res cost sid turns =>
    let s1 :=
      match cost with
      | some c => { s with costUsd := some c }
      | none => s
    let s2 :=
      match res with
      | ResultField.str str1 => if str1.isEmpty then s1 else { s1 with response := some str1 }
      | ResultField.arr blocks =>
        let texts := resultArrayTexts blocks
        if texts.isEmpty then s1 else { s1 with response := some (String.intercalate "\n" texts) }
      | ResultField.absent => s1
    let s3 :=
      match sid with
      | some str2 => { s2 with sessionId := some str2 }
      | none => s2
    match turns with
    | some n => { s3 with numTurns := some n }
    | none => s3
  | CliRecord.other => s

/-- The whole parsed stream, folded left to right in arrival order. -/
def processRecords (records : List CliRecord) : StreamState :=
  records.foldl processRecord {}

/-- Resolution of the `done` promise on the `close` event (lines 319-328):
`code` is `null` when the subprocess was terminated by a signal.  If no
response was extracted from a terminal record, the last captured assistant
text is used as a fallback. -/
def finishClose (code : Option Int) (s : StreamState) : DiscussCliResult :=
  let response :=
    if !strTruthy s.response && !s.assistantText.isEmpty then some s.assistantText
    else s.response
  { exitCode := code, costUsd := s.costUsd, response := response,
    sessionId := s.sessionId, inputTokens := s.inputTokens,
    outputTokens := s.outputTokens, numTurns := s.numTurns }

/-- Resolution of the `done` promise on the `error` event (lines 314-317): a
spawn-level launch failure resolves immediately with a `null` exit code and
whatever was captured so far, without the assistant-text fallback. -/
def finishError (s : StreamState) : DiscussCliResult :=
  { exitCode := none, costUsd := s.costUsd, response := s.response,
    sessionId := s.sessionId, inputTokens := s.inputTokens,
    outputTokens := s.outputTokens, numTurns := s.numTurns }

/-- One step of the fold extracting the usage object of the last
usage-bearing assistant record. -/
def usageStep (acc : Option Usage) (r : CliRecord) : Option Usage :=
  match r with
  | CliRecord.assistant (some u) _ => some u
  | _ => acc

/-- The usage object of the last usage-bearing assistant record of a stream,
if any. -/
def lastUsage (records : List CliRecord) : Option Usage :=
  records.foldl usageStep none

/-! ### Session registry and controller (discuss-workflow.ts)

The module-level `Map` of active discussions becomes an association list
with JS `Map` semantics (`get` / `has` / `set` replacing in place /
`delete`).  Each controller operation becomes a pure transition returning
the new registry together with the list of external effects it attempts
(message posts and updates, subprocess spawns and kills, persistence
calls).  A post wrapped in `try`/`catch` is still an attempted effect;
swallowed delivery failures do not change the emitted list. -/

/-- One tracked session (`ActiveDiscussion`, lines 15-22).  The
`ChildProcess` handle is modelled as an opaque numeric handle. -/
structure ActiveDiscussion where
  channelId : String
  threadTs : String
  cliSessionId : Option String
  cliChild : Option Nat
  isProcessing : Bool
  lastSeenTs : Option String
  deriving DecidableEq

/-- An attempted external effect of a controller transition. -/
inductive Effect where
  | post (channel : String) (thread : Option String) (text : String)
  | update (channel : String) (ts : String) (text : String)
  | spawnCli (resumeSessionId : Option String)
  | spawnCompact (sessionId : String)
  | kill (handle : Nat)
  | dbInsert (threadTs : String) (kind : String) (channel : String)
  | dbUpdateSession (threadTs : String) (sessionId : String)
  | dbDelete (threadTs : String)
  deriving DecidableEq

/-- The in-memory registry, keyed by the thread timestamp. -/
abbrev RegMap := List (String × ActiveDiscussion)

/-- Registry lookup, `discussions.get(threadTs)`. -/
def lookupSession (reg : RegMap) (k : String) : Option ActiveDiscussion :=
  match reg.find? (fun p => p.1 == k) with
  | some p => some p.2
  | none => none

/-- Registry write, `discussions.set(threadTs, d)`: replace in place if the
key exists, append otherwise. -/
def setSession (reg : RegMap) (k : String) (v : ActiveDiscussion) : RegMap :=
  match reg with
  | [] => [(k, v)]
  | p :: rest => if p.1 == k then (k, v) :: rest else p :: setSession rest k v

/-- Registry removal, `discussions.delete(threadTs)`. -/
def eraseSession (reg : RegMap) (k : String) : RegMap :=
  reg.filter (fun p => p.1 != k)

/-! #### Mention stripping (lines 71-73)

`text.replace(/<@[A-Z0-9]+>/g, "").trim()`: the regex scans left to right;
at a `<@` it takes the maximal run of capital letters and digits and
requires a closing `>`.  The scan is implemented with a fuel argument equal
to the input length (each step consumes at least one character) so that it
computes by reduction. -/

/-- A character allowed inside a mention tag: `[A-Z0-9]`. -/
def isMentionChar (c : Char) : Bool :=
  ('A' ≤ c && c ≤ 'Z') || ('0' ≤ c && c ≤ '9')

/-- If the input starts with a complete mention tag `<@[A-Z0-9]+>`, return
the remainder after it. -/
def matchMention : List Char → Option (List Char)
  | '<' :: '@' :: rest =>
    let run := rest.takeWhile isMentionChar
    let after := rest.dropWhile isMentionChar
    if run.isEmpty then none
    else
      match after with
      | '>' :: tail => some tail
      | _ => none
  | _ => none

/-- Remove every mention tag, scanning left to right. -/
def dropMentionsAux : Nat → List Char → List Char
  | 0, l => l
  | _ + 1, [] => []
  | fuel + 1, c :: rest =>
    match matchMention (c :: rest) with
    | some tail => dropMentionsAux fuel tail
    | none => c :: dropMentionsAux fuel rest

/-- JavaScript whitespace as it can occur in chat text (`String.prototype.trim`
also strips rarer Unicode space characters, which never affect the
claims). -/
def isWsChar (c : Char) : Bool :=
  c = ' ' || c = '\t' || c = '\n' || c = '\r'

/-- JavaScript `trim()`: drop whitespace from both ends. -/
def trimChars (l : List Char) : List Char :=
  ((l.dropWhile isWsChar).reverse.dropWhile isWsChar).reverse

/-- Mention stripping, `stripMention` (lines 71-73). -/
def stripMention (text : String) : String :=
  String.mk (trimChars (dropMentionsAux text.data.length text.data))

/-! #### User-facing message texts -/

def thinkingText : String := "Thinking..."

def stillThinkingText : String :=
  "Still thinking on your previous message... hang tight."

def noCliSessionText : String :=
  "No active CLI session. Start a new conversation with a top-level message."

def cantCompactText : String :=
  "Can't compact while still processing. Wait for the current response."

def noCompactSessionText : String := "No active session to compact."

def compactingText : String := "Compacting..."

def compactFailedText : String :=
  "Compact failed. You can use `!exit` to end the session and start fresh."

def sessionEndedText : String :=
  "Session ended. Start a new conversation with a top-level message."

def noResponseText : String := "No response from Claude CLI."

/-- Rounded minutes, `Math.round(ms / 60000)`, on an integer millisecond
count. -/
def timeoutMinutes (timeoutMs : Nat) : Nat := (timeoutMs + 30000) / 60000

/-- The timed-out outcome text (line 128), naming the configured ceiling in
minutes. -/
def timeoutText (timeoutMs : Nat) : String :=
  "CLI session timed out after " ++ toString (timeoutMinutes timeoutMs) ++
    " minutes. Use `!exit` and try again."

/-- Template-literal rendering of `result.exitCode`: JavaScript prints the
value `null` as the string `"null"`. -/
def renderExitCode : Option Int → String
  | none => "null"
  | some k => toString k

/-- The process-error outcome text (line 131). -/
def cliErrorText (exitCode : Option Int) : String :=
  "CLI exited with error (code: " ++ renderExitCode exitCode ++
    "). Use `!exit` and try again."

/-! #### Usage footer (lines 26-50) -/

def CONTEXT_WARN_TOKENS : Nat := 150000
def CONTEXT_MAX_TOKENS : Nat := 200000

/-- Token-count rendering, `formatTokens` (lines 26-29): thousands with one
decimal.  The `toFixed(1)` rounding of `n / 1000` is computed exactly on
naturals. -/
def formatTokens (n : Nat) : String :=
  if n ≥ 1000 then
    let tenths := (n + 50) / 100
    toString (tenths / 10) ++ "." ++ toString (tenths % 10) ++ "K"
  else toString n

/-- Context percentage, `Math.round((inputTokens / CONTEXT_MAX_TOKENS) * 100)`,
on naturals. -/
def contextPct (inputTokens : Nat) : Nat := (inputTokens + 1000) / 2000

/-- Usage footer, `buildUsageFooter` (lines 31-50). -/
def buildUsageFooter (modelName : String) (result : DiscussCliResult) : String :=
  let parts : List String :=
    ["model: " ++ modelName] ++
      (match result.inputTokens with
       | some it =>
         ["context: " ++ formatTokens it ++ " (" ++ toString (contextPct it) ++ "%)"]
       | none => [])
  if parts.isEmpty then ""
  else
    let footer := "\n\n---\n_" ++ String.intercalate " | " parts ++ "_"
    match result.inputTokens with
    | some it =>
      if it ≥ CONTEXT_WARN_TOKENS then
        footer ++ "\n_context getting full — use `!compact` to reset_"
      else footer
    | none => footer

/-! #### Turn finalization (`runDiscussCliWithHeartbeat`, lines 114-140)

After the `done` promise resolves: clear the child handle and the
processing flag, store a freshly returned (truthy) session token and
persist it, and compute the full outcome text — the timeout override wins
over everything, then the process-error text, then the response with the
usage footer.  The heartbeat timer only rewrites the placeholder with an
elapsed-time indicator and touches no session state; it is not modelled.
Delivery (lines 142-173, chunking and posting) only transports `fullText`
and is outside the statement of every claim. -/

def finalizeTurn (timeoutMs : Nat) (modelName : String) (d : ActiveDiscussion)
    (timedOut : Bool) (result : DiscussCliResult) :
    ActiveDiscussion × String × List Effect :=
  let d1 : ActiveDiscussion := { d with cliChild := none, isProcessing := false }
  let d2 : ActiveDiscussion :=
    if strTruthy result.sessionId then
      { d1 with cliSessionId := result.sessionId }
    else d1
  let dbEffects : List Effect :=
    if strTruthy result.sessionId then
      [Effect.dbUpdateSession d.threadTs (result.sessionId.getD "")]
    else []
  let fullText : String :=
    if timedOut then timeoutText timeoutMs
    else if result.exitCode ≠ some 0 ∧ strTruthy result.response = false then
      cliErrorText result.exitCode
    else
      let response :=
        match result.response with
        | some s => if s.isEmpty then noResponseText else s
        | none => noResponseText
      response ++ buildUsageFooter modelName result
  (d2, fullText, dbEffects)

/-! #### Controller operations -/

/-- Session start, `startDiscussSession` (lines 180-223), up to the point where supervision of the spawned
turn is handed to `runDiscussCliWithHeartbeat`.  `handle` is
the opaque handle of the subprocess the spawn would create. -/
def startStep (reg : RegMap) (channelId messageTs text : String) (handle : Nat) :
    RegMap × List Effect :=
  if (lookupSession reg messageTs).isSome then (reg, [])
  else
    let cleanText := stripMention text
    if cleanText.isEmpty then (reg, [])
    else
      let d : ActiveDiscussion :=
        { channelId := channelId, threadTs := messageTs, cliSessionId := none,
          cliChild := some handle, isProcessing := true, lastSeenTs := none }
      (setSession reg messageTs d,
       [Effect.dbInsert messageTs "discuss" channelId,
        Effect.post channelId (some messageTs) thinkingText,
        Effect.spawnCli none])

/-- Follow-up reply, `handleDiscussReply` (lines 225-280), up to the same
hand-off point. -/
def replyStep (reg : RegMap) (threadTs text : String) (handle : Nat) :
    RegMap × List Effect :=
  match lookupSession reg threadTs with
  | none => (reg, [])
  | some d =>
    let cleanText := stripMention text
    if cleanText.isEmpty then (reg, [])
    else if d.isProcessing then
      (reg, [Effect.post d.channelId (some threadTs) stillThinkingText])
    else if strTruthy d.cliSessionId = false then
      (reg, [Effect.post d.channelId (some threadTs) noCliSessionText])
    else
      (setSession reg threadTs { d with isProcessing := true, cliChild := some handle },
       [Effect.post d.channelId (some threadTs) thinkingText,
        Effect.spawnCli d.cliSessionId])

/-- Session exit, `handleDiscussExit` (lines 370-395). -/
def exitStep (reg : RegMap) (threadTs : String) : RegMap × List Effect :=
  match lookupSession reg threadTs with
  | none => (reg, [])
  | some d =>
    let killEffects : List Effect :=
      match d.cliChild with
      | some h => [Effect.kill h]
      | none => []
    (eraseSession reg threadTs,
     killEffects ++
       [Effect.dbDelete threadTs,
        Effect.post d.channelId (some threadTs) sessionEndedText])

/-! #### Compact (claude-cli.ts `compactCliSession`, lines 339-421, and
`handleDiscussCompact`, lines 282-368) -/

/-- The resolved value of the compact `done` promise. -/
structure CompactResult where
  success : Bool
  inputTokens : Option Nat := none
  costUsd : Option Nat := none
  deriving DecidableEq

/-- The captures of the compact stdout handler (lines 366-396). -/
structure CompactState where
  inputTokens : Option Nat := none
  costUsd : Option Nat := none
  deriving DecidableEq

/-- Processing of one parsed record by the compact stdout handler
(lines 378-393): assistant usage overwrites the context size, a terminal
record supplies the cost. -/
def processCompactRecord (s : CompactState) : CliRecord → CompactState
  | CliRecord.assistant usage _ =>
    match usage with
    | some u => { s with inputTokens := some (sumUsage u) }
    | none => s
  | CliRecord.result _ cost _ _ =>
    match cost with
    | some c => { s with costUsd := some c }
    | none => s
  | CliRecord.other => s

/-- Compact resolution on the `close` event (lines 403-406): success is
exactly exit code `0` (a `null` code from a signal kill is a failure). -/
def compactFinishClose (code : Option Int) (s : CompactState) : CompactResult :=
  { success := code == some 0, inputTokens := s.inputTokens, costUsd := s.costUsd }

/-- Compact resolution on the `error` event (lines 408-411). -/
def compactFinishError : CompactResult := { success := false }

/-- The compact success report (lines 339-348).  The fractional-dollar
`toFixed(4)` rendering of the cost is abstracted to a decimal rendering of
the opaque cost value, which no claim inspects. -/
def compactSuccessText (cres : CompactResult) : String :=
  let parts : List String :=
    ["Session compacted."] ++
      (match cres.inputTokens with
       | some it =>
         ["Context now: " ++ formatTokens it ++ " (" ++ toString (contextPct it) ++ "%)"]
       | none => []) ++
      (match cres.costUsd with
       | some c => ["Cost: $" ++ toString c]
       | none => [])
  String.intercalate " | " parts

/-- In-place compaction, `handleDiscussCompact` (lines 282-368), which awaits the compact
subprocess inline.  `thinkingTs` is the platform-assigned id of the
"Compacting..." placeholder, if that post succeeded; `handle` the spawned
subprocess handle; `cres` the resolved compact outcome. -/
def compactStep (reg : RegMap) (threadTs : String) (thinkingTs : Option String)
    (handle : Nat) (cres : CompactResult) : RegMap × List Effect :=
  match lookupSession reg threadTs with
  | none => (reg, [])
  | some d =>
    if d.isProcessing then
      (reg, [Effect.post d.channelId (some threadTs) cantCompactText])
    else if strTruthy d.cliSessionId = false then
      (reg, [Effect.post d.channelId (some threadTs) noCompactSessionText])
    else
      let sid := d.cliSessionId.getD ""
      let dFinal : ActiveDiscussion := { d with cliChild := none, isProcessing := false }
      let message := if cres.success then compactSuccessText cres else compactFailedText
      let deliver : Effect :=
        match thinkingTs with
        | some ts => Effect.update d.channelId ts message
        | none => Effect.post d.channelId (some threadTs) message
      (setSession reg threadTs dFinal,
       [Effect.post d.channelId (some threadTs) compactingText,
        Effect.spawnCompact sid,
        deliver])

/-! ### Concrete instances used by counterexamples and witnesses -/

/-- A session currently running a turn. -/
def exDiscussion : ActiveDiscussion :=
  { channelId := "C1", threadTs := "t1", cliSessionId := some "sess",
    cliChild := none, isProcessing := true, lastSeenTs := none }

def exReg : RegMap := [("t1", exDiscussion)]

/-- An idle session with a stored resumption token. -/
def exSession4 : ActiveDiscussion :=
  { channelId := "C1", threadTs := "t4", cliSessionId := some "old-token",
    cliChild := none, isProcessing := true, lastSeenTs := none }

/-- A terminal record whose `session_id` is the empty string: captured by the
`typeof` check, rejected by the truthiness check. -/
def exTokenStream : List CliRecord :=
  [CliRecord.result ResultField.absent none (some "") none]

def exResTok : DiscussCliResult := { exitCode := some 0, sessionId := some "abc" }

def exResNoTok : DiscussCliResult := { exitCode := some 0 }

def exResLaunch : DiscussCliResult := { exitCode := none }

def exResErr : DiscussCliResult := { exitCode := some 1 }

/-- First record of the usage-accounting example in the spec:
`{base: 100, cacheCreation: 20, cacheRead: 5}`. -/
def exUsage1 : Usage :=
  { input_tokens := some 100, cache_creation_input_tokens := some 20,
    cache_read_input_tokens := some 5 }

/-- Second record of the usage-accounting example in the spec:
`{base: 50, cacheCreation: 0, cacheRead: 200}`. -/
def exUsage2 : Usage :=
  { input_tokens := some 50, cache_creation_input_tokens := some 0,
    cache_read_input_tokens := some 200 }

def exUsageStream : List CliRecord :=
  [CliRecord.assistant (some exUsage1) none,
   CliRecord.assistant (some exUsage2) none]

/-- A toy line parser for the chunking witness: parse never matters for the
chunk-boundary property, which holds for every parse function. -/
def exLineLength (l : List Char) : Option Nat := some l.length

def exChunksA : List (List Char) := [['a', '\n', 'b'], ['c', '\n']]

def exChunksB : List (List Char) := [['a'], ['\n'], ['b', 'c', '\n']]

/-- An idle session eligible for compacting. -/
def exCompactSession : ActiveDiscussion :=
  { channelId := "C2", threadTs := "t7", cliSessionId := some "sess7",
    cliChild := none, isProcessing := false, lastSeenTs := none }

def exRegC : RegMap := [("t7", exCompactSession)]

def exCompactFail : CompactResult := { success := false }

/-! ### Helper lemmas -/

theorem scanLines_append (a b : List Char) :
    scanLines (a ++ b) = scanCombine (scanLines a) (scanLines b) := by
  induction a with
  | nil =>
    rcases hb : scanLines b with ⟨lb, pb⟩
    cases lb <;> simp [scanCombine, scanLines, hb]
  | cons c a ih =>
    rw [List.cons_append]
    rcases ha : scanLines a with ⟨la, pa⟩
    rcases hb : scanLines b with ⟨lb, pb⟩
    rw [ha, hb] at ih
    by_cases hc : c = '\n'
    · subst hc
      simp only [scanLines, if_pos rfl, ih, ha, hb]
      cases lb <;> simp [scanCombine]
    · simp only [scanLines, if_neg hc, ih, ha, hb]
      cases la <;> cases lb <;> simp [scanCombine]

/-- The pending segment kept by the parser never contains a newline, so
re-scanning it yields no complete line. -/
theorem scanLines_pending (l : List Char) :
    scanLines (scanLines l).2 = ([], (scanLines l).2) := by
  induction l with
  | nil => simp [scanLines]
  | cons c rest ih =>
    by_cases hc : c = '\n'
    · subst hc
      simpa [scanLines] using ih
    · rcases hr : scanLines rest with ⟨lr, pr⟩
      rw [hr] at ih
      cases lr with
      | nil =>
        simp only [scanLines, if_neg hc, hr]
        simp [scanLines, hc, ih]
      | cons l0 ls =>
        simp only [scanLines, if_neg hc, hr]
        simpa using ih

theorem feedChunks_eq_single (chunks : List (List Char)) :
    feedChunks chunks = scanLines chunks.flatten := by
  suffices h : ∀ (cs : List (List Char)) (acc : List (List Char)) (p : List Char),
      scanLines p = ([], p) →
      cs.foldl feedChunk (acc, p) =
        (acc ++ (scanLines (p ++ cs.flatten)).1, (scanLines (p ++ cs.flatten)).2) by
    have h0 := h chunks [] [] (by simp [scanLines])
    simpa [feedChunks] using h0
  intro cs
  induction cs with
  | nil => intro acc p hp; simp [hp]
  | cons c cs ih =>
    intro acc p hp
    simp only [List.foldl_cons, feedChunk, List.flatten_cons]
    rcases hx : scanLines (p ++ c) with ⟨lx, px⟩
    have hpx : scanLines px = ([], px) := by
      have hpd := scanLines_pending (p ++ c)
      rwa [hx] at hpd
    show List.foldl feedChunk (acc ++ lx, px) cs =
      (acc ++ (scanLines (p ++ (c ++ cs.flatten))).1,
        (scanLines (p ++ (c ++ cs.flatten))).2)
    rw [ih (acc ++ lx) px hpx]
    have hassoc : p ++ (c ++ cs.flatten) = (p ++ c) ++ cs.flatten := by
      simp [List.append_assoc]
    rw [hassoc, scanLines_append (p ++ c) cs.flatten, hx,
      scanLines_append px cs.flatten, hpx]
    rcases hy : scanLines cs.flatten with ⟨ly, py⟩
    cases ly <;> simp [scanCombine]

theorem lastUsage_foldl_init (records : List CliRecord) (acc : Option Usage) :
    records.foldl usageStep acc =
      match lastUsage records with
      | some u => some u
      | none => acc := by
  induction records generalizing acc with
  | nil => simp [lastUsage]
  | cons r rs ih =>
    simp only [List.foldl_cons, lastUsage]
    rw [ih (usageStep acc r), ih (usageStep none r)]
    cases h : lastUsage rs with
    | some v => rfl
    | none =>
      cases r with
      | assistant usage content => cases usage <;> rfl
      | result res cost sid turns => rfl
      | other => rfl

theorem processRecord_inputTokens (s : StreamState) (r : CliRecord) :
    (processRecord s r).inputTokens =
      match usageStep none r with
      | some u => some (sumUsage u)
      | none => s.inputTokens := by
  cases r with
  | assistant usage content =>
    cases usage <;> cases content <;> rfl
  | result res cost sid turns =>
    cases res <;> cases cost <;> cases sid <;> cases turns <;>
      simp only [processRecord, usageStep] <;>
      first
        | rfl
        | (split <;> rfl)
  | other => rfl

/-- The `inputTokens` capture after folding a stream is determined by the
last usage-bearing assistant record alone: its context size, or the prior
capture when the stream carries no usage. -/
theorem inputTokens_foldl (records : List CliRecord) (s : StreamState) :
    (records.foldl processRecord s).inputTokens =
      match lastUsage records with
      | some u => some (sumUsage u)
      | none => s.inputTokens := by
  induction records generalizing s with
  | nil => simp [lastUsage]
  | cons r rs ih =>
    simp only [List.foldl_cons, lastUsage]
    rw [ih (processRecord s r), lastUsage_foldl_init rs (usageStep none r)]
    cases h : lastUsage rs with
    | some u => rfl
    | none => rw [processRecord_inputTokens]

theorem lookupSession_erase (reg : RegMap) (k : String) :
    lookupSession (eraseSession reg k) k = none := by
  induction reg with
  | nil => rfl
  | cons p rest ih =>
    by_cases h : p.1 = k
    · simpa [eraseSession, h] using ih
    · simpa [eraseSession, lookupSession, List.find?, h] using ih

theorem lookupSession_set (reg : RegMap) (k : String) (v : ActiveDiscussion) :
    lookupSession (setSession reg k v) k = some v := by
  induction reg with
  | nil => simp [setSession, lookupSession, List.find?]
  | cons p rest ih =>
    by_cases h : p.1 = k
    · simp [setSession, h, lookupSession, List.find?]
    · simpa [setSession, h, lookupSession, List.find?] using ih

/-! ### Decimal renderings never collide with the string "null"

Needed for the distinctness half of the launch-failure claim: the
template-literal rendering of a numeric exit code can never equal the
rendering of `null`. -/

theorem digitChar_ne_n : ∀ d, d < 10 → Nat.digitChar d ≠ 'n' := by decide

theorem toDigitsCore_ne_n (fuel : Nat) :
    ∀ (n : Nat) (acc : List Char), 'n' ∉ acc →
      'n' ∉ Nat.toDigitsCore 10 fuel n acc := by
  induction fuel with
  | zero => intro n acc hacc; simpa [Nat.toDigitsCore] using hacc
  | succ fuel ih =>
    intro n acc hacc
    have hd : Nat.digitChar (n % 10) ≠ 'n' :=
      digitChar_ne_n (n % 10) (Nat.mod_lt _ (by decide))
    simp only [Nat.toDigitsCore]
    by_cases h : n / 10 = 0
    · simp only [if_pos h, List.mem_cons, not_or]
      exact ⟨fun he => hd he.symm, hacc⟩
    · simp only [if_neg h]
      exact ih (n / 10) (Nat.digitChar (n % 10) :: acc)
        (by
          simp only [List.mem_cons, not_or]
          exact ⟨fun he => hd he.symm, hacc⟩)

theorem natRepr_ne_null (m : Nat) : Nat.repr m ≠ "null" := by
  intro h
  have hmem : 'n' ∉ Nat.toDigits 10 m :=
    toDigitsCore_ne_n (m + 1) m [] (by simp)
  have hdata : (Nat.repr m).data = "null".data := by rw [h]
  have hdata2 : Nat.toDigits 10 m = ['n', 'u', 'l', 'l'] := hdata
  rw [hdata2] at hmem
  simp at hmem

theorem toStringInt_ne_null (k : Int) : toString k ≠ "null" := by
  cases k with
  | ofNat m => exact natRepr_ne_null m
  | negSucc m =>
    intro h
    have hdata : (toString (Int.negSucc m)).data = "null".data := by rw [h]
    have hdata2 : '-' :: (Nat.repr (m + 1)).data = ['n', 'u', 'l', 'l'] := hdata
    exact absurd (List.head_eq_of_cons_eq hdata2) (by decide)

/-! ### The claims -/

/-- Claim C1, counterexample to the claim as stated: with a session whose
`isProcessing` flag is true, a reply whose text is all whitespace (empty
after mention stripping) returns before the processing guard, so the
"still thinking" notice is posted zero times, not exactly once. -/
theorem claim_C1_counterexample :
    exDiscussion.isProcessing = true ∧
    replyStep exReg "t1" " " 7 = (exReg, []) := by
  constructor
  · rfl
  · decide

/-- Claim C1 (amended): while the `isProcessing` flag of a session is true, every
reply call on its conversation id whose text is nonempty after mention
stripping spawns no subprocess, posts the "still thinking" notice exactly
once, and leaves the registry — hence every field of the session record —
unchanged. -/
theorem claim_C1 (reg : RegMap) (threadTs text : String) (handle : Nat)
    (d : ActiveDiscussion) (hd : lookupSession reg threadTs = some d)
    (hp : d.isProcessing = true)
    (ht : (stripMention text).isEmpty = false) :
    replyStep reg threadTs text handle =
      (reg, [Effect.post d.channelId (some threadTs) stillThinkingText]) := by
  unfold replyStep
  rw [hd]
  simp [ht, hp]

/-- Claim C1, witness: a concrete busy session and a concrete nonempty
reply. -/
theorem claim_C1_witness :
    replyStep exReg "t1" "status?" 7 =
      (exReg, [Effect.post "C1" (some "t1") stillThinkingText]) :=
  claim_C1 exReg "t1" "status?" 7 exDiscussion (by decide) (by decide) (by decide)

/-- Claim C2: the final `inputTokens` of a resolved turn equals the sum of
the three usage sub-fields of the last usage-bearing assistant record
(missing sub-fields counted as 0); earlier usage records are overwritten,
not accumulated. -/
theorem claim_C2 (records : List CliRecord) (code : Option Int) (u : Usage)
    (h : lastUsage records = some u) :
    (finishClose code (processRecords records)).inputTokens = some (sumUsage u) := by
  show (records.foldl processRecord {}).inputTokens = some (sumUsage u)
  rw [inputTokens_foldl, h]

/-- Claim C2, witness: the two-record stream from the spec
`{base: 100, cacheCreation: 20, cacheRead: 5}` then
`{base: 50, cacheCreation: 0, cacheRead: 200}` yields 250 (not 375). -/
theorem claim_C2_witness :
    (finishClose (some 0) (processRecords exUsageStream)).inputTokens = some 250 :=
  (claim_C2 exUsageStream (some 0) exUsage2 (by decide)).trans (by decide)

/-- Claim C3: for every parse function and every two chunkings of the same
character stream, the per-chunk routine (append to pending buffer, split on
newline, keep the final segment pending, attempt each complete line,
discard failures) emits the same sequence of parsed objects. -/
theorem claim_C3 {α : Type} (parse : List Char → Option α)
    (cs1 cs2 : List (List Char)) (h : cs1.flatten = cs2.flatten) :
    emittedObjects parse cs1 = emittedObjects parse cs2 := by
  unfold emittedObjects
  rw [feedChunks_eq_single, feedChunks_eq_single, h]

/-- Claim C3, witness: two different chunkings of the same two-line
stream. -/
theorem claim_C3_witness :
    emittedObjects exLineLength exChunksA = emittedObjects exLineLength exChunksB :=
  claim_C3 exLineLength exChunksA exChunksB (by decide)

/-- Claim C4, counterexample to the claim as stated: a terminal record can
carry the empty string as its session token; the `typeof` check captures it
into the result, but the truthiness store guard rejects it, so the stored
token stays at its prior value instead of becoming the carried token. -/
theorem claim_C4_counterexample :
    (finishClose (some 0) (processRecords exTokenStream)).sessionId = some "" ∧
    (finalizeTurn 600000 "m" exSession4 false
        (finishClose (some 0) (processRecords exTokenStream))).1.cliSessionId =
      some "old-token" := by
  constructor
  · decide
  · decide

/-- Claim C4 (amended): after a turn whose resolved result carries a
nonempty session token, the stored resumption token of the session equals
exactly that token; a turn whose result carries no token leaves the prior
token untouched. -/
theorem claim_C4 (timeoutMs : Nat) (modelName : String) (d : ActiveDiscussion)
    (timedOut : Bool) (result : DiscussCliResult) :
    (∀ tok : String, result.sessionId = some tok → tok.isEmpty = false →
        (finalizeTurn timeoutMs modelName d timedOut result).1.cliSessionId = some tok) ∧
    (result.sessionId = none →
        (finalizeTurn timeoutMs modelName d timedOut result).1.cliSessionId =
          d.cliSessionId) := by
  constructor
  · intro tok h hne
    unfold finalizeTurn
    simp [strTruthy, h, hne]
  · intro h
    unfold finalizeTurn
    simp [strTruthy, h]

/-- Claim C4, witness: a token-bearing result overwrites the stored token; a
tokenless result leaves it alone. -/
theorem claim_C4_witness :
    (finalizeTurn 600000 "m" exSession4 false exResTok).1.cliSessionId = some "abc" ∧
    (finalizeTurn 600000 "m" exSession4 false exResNoTok).1.cliSessionId =
      some "old-token" :=
  ⟨(claim_C4 600000 "m" exSession4 false exResTok).1 "abc" rfl (by decide),
   (claim_C4 600000 "m" exSession4 false exResNoTok).2 rfl⟩

/-- Claim C5: when the timeout timer flagged the turn, the finalized message
is the timeout text naming the configured ceiling in minutes, for every
resolved result — in particular regardless of any partial response text
captured before the kill. -/
theorem claim_C5 (timeoutMs : Nat) (modelName : String) (d : ActiveDiscussion)
    (result : DiscussCliResult) :
    (finalizeTurn timeoutMs modelName d true result).2.1 = timeoutText timeoutMs := by
  unfold finalizeTurn
  simp

/-- Claim C6: a spawn-level error resolves the completion promise with a
`null` exit code; the controller then reports the launch failure with the
`code: null` text, a process-error exit (nonzero code, no usable response)
with the text naming that code, and the two reports are distinct for every
nonzero code. -/
theorem claim_C6 :
    (∀ s : StreamState, (finishError s).exitCode = none) ∧
    (∀ (timeoutMs : Nat) (modelName : String) (d : ActiveDiscussion)
        (result : DiscussCliResult),
        result.exitCode = none → strTruthy result.response = false →
        (finalizeTurn timeoutMs modelName d false result).2.1 = cliErrorText none) ∧
    (∀ (timeoutMs : Nat) (modelName : String) (d : ActiveDiscussion)
        (result : DiscussCliResult) (k : Int),
        result.exitCode = some k → k ≠ 0 → strTruthy result.response = false →
        (finalizeTurn timeoutMs modelName d false result).2.1 = cliErrorText (some k)) ∧
    (∀ k : Int, cliErrorText (some k) ≠ cliErrorText none) := by
  refine ⟨fun s => rfl, ?_, ?_, ?_⟩
  · intro timeoutMs modelName d result h hr
    unfold finalizeTurn
    simp [h, hr]
  · intro timeoutMs modelName d result k h hk hr
    unfold finalizeTurn
    simp [h, hr, hk]
  · intro k h
    apply toStringInt_ne_null k
    have hdata := congrArg String.data h
    simp only [cliErrorText, renderExitCode, String.data_append] at hdata
    have h1 := List.append_cancel_right hdata
    have h2 := List.append_cancel_left h1
    exact congrArg String.mk h2

/-- Claim C6, witness: concrete launch-failure and process-error results. -/
theorem claim_C6_witness :
    (finishError {}).exitCode = none ∧
    (finalizeTurn 600000 "m" exSession4 false exResLaunch).2.1 = cliErrorText none ∧
    (finalizeTurn 600000 "m" exSession4 false exResErr).2.1 = cliErrorText (some 1) ∧
    cliErrorText (some 1) ≠ cliErrorText none :=
  ⟨claim_C6.1 {}, claim_C6.2.1 600000 "m" exSession4 exResLaunch rfl rfl,
   claim_C6.2.2.1 600000 "m" exSession4 exResErr 1 rfl (by decide) rfl,
   claim_C6.2.2.2 1⟩

/-- Claim C7: a compact succeeds exactly when the compact subprocess exits
with code 0 (an `error`-event resolution is a failure); for every compact
outcome the stored session record keeps its resumption token and ends with
`isProcessing` false and no child handle, and on failure the "Compact
failed" guidance is the delivered report. -/
theorem claim_C7 :
    (∀ (code : Option Int) (s : CompactState),
        (compactFinishClose code s).success = true ↔ code = some 0) ∧
    compactFinishError.success = false ∧
    (∀ (reg : RegMap) (threadTs : String) (thinkingTs : Option String)
        (handle : Nat) (cres : CompactResult) (d : ActiveDiscussion),
        lookupSession reg threadTs = some d → d.isProcessing = false →
        strTruthy d.cliSessionId = true →
        lookupSession (compactStep reg threadTs thinkingTs handle cres).1 threadTs =
          some { d with cliChild := none, isProcessing := false }) ∧
    (∀ (reg : RegMap) (threadTs : String) (thinkingTs : Option String)
        (handle : Nat) (cres : CompactResult) (d : ActiveDiscussion),
        lookupSession reg threadTs = some d → d.isProcessing = false →
        strTruthy d.cliSessionId = true → cres.success = false →
        (compactStep reg threadTs thinkingTs handle cres).2 =
          [Effect.post d.channelId (some threadTs) compactingText,
           Effect.spawnCompact (d.cliSessionId.getD ""),
           match thinkingTs with
           | some ts => Effect.update d.channelId ts compactFailedText
           | none => Effect.post d.channelId (some threadTs) compactFailedText]) := by
  refine ⟨?_, rfl, ?_, ?_⟩
  · intro code s
    simp [compactFinishClose]
  · intro reg threadTs thinkingTs handle cres d hd hp hs
    unfold compactStep
    rw [hd]
    simp [hp, hs, lookupSession_set]
  · intro reg threadTs thinkingTs handle cres d hd hp hs hf
    unfold compactStep
    rw [hd]
    simp [hp, hs, hf]

/-- Claim C7, witness: a failed compact against a concrete idle session with
a stored token. -/
theorem claim_C7_witness :
    ((compactFinishClose (some 1) {}).success = true ↔ (some 1 : Option Int) = some 0) ∧
    lookupSession (compactStep exRegC "t7" (some "ts1") 3 exCompactFail).1 "t7" =
      some { exCompactSession with cliChild := none, isProcessing := false } ∧
    (compactStep exRegC "t7" (some "ts1") 3 exCompactFail).2 =
      [Effect.post "C2" (some "t7") compactingText,
       Effect.spawnCompact "sess7",
       Effect.update "C2" "ts1" compactFailedText] :=
  ⟨claim_C7.1 (some 1) {},
   claim_C7.2.2.1 exRegC "t7" (some "ts1") 3 exCompactFail exCompactSession
     (by decide) rfl (by decide),
   claim_C7.2.2.2 exRegC "t7" (some "ts1") 3 exCompactFail exCompactSession
     (by decide) rfl (by decide) rfl⟩

/-- Claim C8: exiting a conversation id with no registered session is a
no-op with no effects (the transition is total, so nothing can throw), and
after an exit has removed a session, a second exit on the same id performs
no kill, no registry or persistence mutation, and posts nothing. -/
theorem claim_C8 :
    (∀ (reg : RegMap) (threadTs : String),
        lookupSession reg threadTs = none → exitStep reg threadTs = (reg, [])) ∧
    (∀ (reg : RegMap) (threadTs : String),
        exitStep (exitStep reg threadTs).1 threadTs = ((exitStep reg threadTs).1, [])) := by
  have hnone : ∀ (reg : RegMap) (threadTs : String),
      lookupSession reg threadTs = none → exitStep reg threadTs = (reg, []) := by
    intro reg t h
    unfold exitStep
    rw [h]
  refine ⟨hnone, ?_⟩
  intro reg t
  cases h : lookupSession reg t with
  | none =>
    rw [hnone reg t h]
    exact hnone reg t h
  | some d =>
    have e : (exitStep reg t).1 = eraseSession reg t := by
      unfold exitStep
      rw [h]
    rw [e]
    exact hnone (eraseSession reg t) t (lookupSession_erase reg t)

/-- Claim C8, witness: exiting an unregistered id, and exiting twice on a
concrete registered session. -/
theorem claim_C8_witness :
    exitStep ([] : RegMap) "tz" = ([], []) ∧
    exitStep (exitStep exReg "t1").1 "t1" = ((exitStep exReg "t1").1, []) :=
  ⟨claim_C8.1 [] "tz" rfl, claim_C8.2 exReg "t1"⟩

/-- Claim C9: starting a conversation id that is already registered is a
no-op — no session record created or replaced, no placeholder posted, no
subprocess spawned. -/
theorem claim_C9 (reg : RegMap) (channelId threadTs text : String) (handle : Nat)
    (d : ActiveDiscussion) (h : lookupSession reg threadTs = some d) :
    startStep reg channelId threadTs text handle = (reg, []) := by
  unfold startStep
  rw [h]
  rfl

/-- Claim C9, witness: a duplicate start against a concrete registered
session. -/
theorem claim_C9_witness :
    startStep exReg "C1" "t1" "hello again" 9 = (exReg, []) :=
  claim_C9 exReg "C1" "t1" "hello again" 9 exDiscussion (by decide)

/-- Claim C10: when the text is empty after mention stripping (including
all-whitespace text), both start and reply return without creating or
mutating any session, posting any message, or spawning any subprocess. -/
theorem claim_C10 (reg : RegMap) (channelId threadTs text : String) (handle : Nat)
    (h : (stripMention text).isEmpty = true) :
    startStep reg channelId threadTs text handle = (reg, []) ∧
    replyStep reg threadTs text handle = (reg, []) := by
  constructor
  · unfold startStep
    by_cases hs : (lookupSession reg threadTs).isSome
    · simp [hs]
    · simp [hs, h]
  · unfold replyStep
    cases hl : lookupSession reg threadTs with
    | none => rfl
    | some d => simp [h]

/-- Claim C10, witness: a mention-only message (empty once the mention tag
and whitespace are stripped). -/
theorem claim_C10_witness :
    startStep ([] : RegMap) "C9" "t9" " <@U0AB12> " 2 = ([], []) ∧
    replyStep ([] : RegMap) "t9" " <@U0AB12> " 2 = ([], []) :=
  claim_C10 [] "C9" "t9" " <@U0AB12> " 2 (by decide)

end OneClaw
